import Mathlib

/-!
Shallow embedding of src/examples/opensensor-space/opensensor_space.py.

Conventions of the embedding:
* Machine time is an exact rational number of seconds since the Unix epoch
  (UTC).  The wall-clock components that the Python code reads off datetime
  objects (minute, second, calendar date) are recovered from the integer
  part of that rational via Rat.floor, matching CPython, where the second
  and minute fields of a datetime are whole numbers.  Integer division and
  remainder on Int (euclidean, nonnegative remainder for the positive
  divisors used here) coincide with the Python floor-division semantics.
* The two adjacent clock reads in main (datetime.datetime.now on line 188
  and time.time on line 200) are modelled as one instant, and the row
  timestamp taken in read_sensors is identified with the cycle instant at
  which the flush condition is then checked.
* Sensor values are exact rationals.  A sensor read that raises is
  modelled as Option.none.
-/

/-- Model of compensate_temperature (lines 98 to 124).  The module global
cpu_temps is passed and returned explicitly; the auxiliary CPU temperature
obtained from get_cpu_temperature inside the call is the input cpu_temp.
The boolean enabled stands for TEMP_COMPENSATION_ENABLED and factor for
TEMP_COMPENSATION_FACTOR. -/
def compensate_temperature (enabled : Bool) (factor : ℚ) (cpu_temps : List ℚ)
    (cpu_temp raw_temp : ℚ) : List ℚ × ℚ :=
  if enabled then
    let temps := if cpu_temps.length = 0 then List.replicate 5 cpu_temp
      else cpu_temps.tail ++ [cpu_temp]
    let avg_cpu_temp := temps.sum / (temps.length : ℚ)
    (temps, raw_temp - ((avg_cpu_temp - raw_temp) / factor))
  else
    (cpu_temps, raw_temp)

/-- Rolling history left by a sequence of enabled compensation calls, one
call per entry of aux (the history update in the source does not inspect
the raw reading, so a dummy raw argument is passed). -/
def cpu_temps_after (factor : ℚ) (aux : List ℚ) : List ℚ :=
  aux.foldl (fun h a => (compensate_temperature true factor h a 0).1) []

/-- Raw gas sensor readings in ohms, as returned by gas.read_all. -/
structure GasReading where
  oxidising : ℚ
  reducing : ℚ
  nh3 : ℚ
deriving DecidableEq

/-- Successful PMS5003 readings: three mass concentrations and six
particle counts by size. -/
structure PMReading where
  pm1 : ℚ
  pm2_5 : ℚ
  pm10 : ℚ
  particles_03um : ℚ
  particles_05um : ℚ
  particles_10um : ℚ
  particles_25um : ℚ
  particles_50um : ℚ
  particles_100um : ℚ
deriving DecidableEq

/-- Inputs consumed by one read_sensors call.  A none value models a read
that raises (timeout or malformed value) on that sensor. -/
structure SensorInputs where
  timestamp : ℚ
  bme : Option (ℚ × ℚ × ℚ)
  gas : Option GasReading
  ltr : Option (ℚ × ℚ)
  pm : Option PMReading
  cpu_temp : ℚ
deriving DecidableEq

/-- The row dictionary assembled by read_sensors in the default
configuration.  The nine particulate fields are optional because the
source stores None in them on a caught PMS5003 error; every other field is
always assigned. -/
structure SampleRow where
  timestamp : ℚ
  temperature : ℚ
  raw_temperature : ℚ
  pressure : ℚ
  humidity : ℚ
  oxidised : ℚ
  reducing : ℚ
  nh3 : ℚ
  lux : ℚ
  proximity : ℚ
  pm1 : Option ℚ
  pm2_5 : Option ℚ
  pm10 : Option ℚ
  particles_03um : Option ℚ
  particles_05um : Option ℚ
  particles_10um : Option ℚ
  particles_25um : Option ℚ
  particles_50um : Option ℚ
  particles_100um : Option ℚ
deriving DecidableEq

/-- Model of read_sensors (lines 127 to 178) with every sensor enabled and
initialized (the default SENSOR_CONFIG).  Only the PMS5003 read is guarded
by try and except in the source (lines 156 to 176): its failure stores
None in all nine particulate fields.  A failure of the BME280, gas or
LTR559 read is not caught anywhere, so the exception propagates out of
read_sensors and out of the while loop of main; the call is then modelled
as none.  On success the result pairs the assembled row with the updated
compensation history. -/
def read_sensors (enabled : Bool) (factor : ℚ) (cpu_temps : List ℚ)
    (inp : SensorInputs) : Option (SampleRow × List ℚ) :=
  match inp.bme with
  | none => none
  | some (raw_temp, press, humid) =>
    let comp := compensate_temperature enabled factor cpu_temps inp.cpu_temp raw_temp
    match inp.gas with
    | none => none
    | some g =>
      match inp.ltr with
      | none => none
      | some (lx, prox) =>
        match inp.pm with
        | some p =>
          some ({ timestamp := inp.timestamp
                  temperature := comp.2
                  raw_temperature := raw_temp
                  pressure := press
                  humidity := humid
                  oxidised := g.oxidising / 1000
                  reducing := g.reducing / 1000
                  nh3 := g.nh3 / 1000
                  lux := lx
                  proximity := prox
                  pm1 := some p.pm1
                  pm2_5 := some p.pm2_5
                  pm10 := some p.pm10
                  particles_03um := some p.particles_03um
                  particles_05um := some p.particles_05um
                  particles_10um := some p.particles_10um
                  particles_25um := some p.particles_25um
                  particles_50um := some p.particles_50um
                  particles_100um := some p.particles_100um }, comp.1)
        | none =>
          some ({ timestamp := inp.timestamp
                  temperature := comp.2
                  raw_temperature := raw_temp
                  pressure := press
                  humidity := humid
                  oxidised := g.oxidising / 1000
                  reducing := g.reducing / 1000
                  nh3 := g.nh3 / 1000
                  lux := lx
                  proximity := prox
                  pm1 := none
                  pm2_5 := none
                  pm10 := none
                  particles_03um := none
                  particles_05um := none
                  particles_10um := none
                  particles_25um := none
                  particles_50um := none
                  particles_100um := none }, comp.1)

/-- C4: with compensation enabled and factor 2.25, after the auxiliary
temperature sequence 50,50,50,50,50 the rolling history holds five copies
of 50; the sixth call with auxiliary value 52 shifts the history to
50,50,50,50,52, whose arithmetic mean is 50.4, and returns
raw - (50.4 - raw)/2.25 for every raw reading.  In general the first call
seeds the history with five copies of the current auxiliary value, and
each later call drops the oldest entry, appends the new one, and returns
raw minus (mean of history minus raw) divided by the factor. -/
theorem c4_compensation_sequence :
    cpu_temps_after 2.25 [50, 50, 50, 50, 50] = [50, 50, 50, 50, 50] ∧
    cpu_temps_after 2.25 [50, 50, 50, 50, 50, 52] = [50, 50, 50, 50, 52] ∧
    ([(50 : ℚ), 50, 50, 50, 52].sum / 5 : ℚ) = 50.4 ∧
    (∀ raw : ℚ,
      compensate_temperature true 2.25 (cpu_temps_after 2.25 [50, 50, 50, 50, 50]) 52 raw =
        ([50, 50, 50, 50, 52], raw - (50.4 - raw) / 2.25)) ∧
    (∀ factor a raw : ℚ,
      compensate_temperature true factor [] a raw =
        (List.replicate 5 a,
          raw - ((List.replicate 5 a).sum / ((List.replicate 5 a).length : ℚ) - raw) / factor)) ∧
    (∀ (factor x a raw : ℚ) (xs : List ℚ),
      compensate_temperature true factor (x :: xs) a raw =
        (xs ++ [a],
          raw - ((xs ++ [a]).sum / (((xs ++ [a]).length : ℚ)) - raw) / factor)) := by
  refine ⟨?_, ?_, by norm_num, ?_, ?_, ?_⟩
  · norm_num [cpu_temps_after, compensate_temperature, List.replicate]
  · norm_num [cpu_temps_after, compensate_temperature, List.replicate]
    decide
  · intro raw
    have h5 : cpu_temps_after 2.25 [50, 50, 50, 50, 50] = [50, 50, 50, 50, 50] := by
      norm_num [cpu_temps_after, compensate_temperature, List.replicate]
    rw [h5]
    norm_num [compensate_temperature]
  · intro factor a raw
    rfl
  · intro factor x a raw xs
    simp [compensate_temperature]

/-- C5: with compensation disabled the call returns the raw reading
unchanged, leaves the rolling history untouched, and its result does not
depend on the auxiliary temperature at all (the source returns before
get_cpu_temperature is called). -/
theorem c5_disabled_identity :
    ∀ (factor : ℚ) (cpu_temps : List ℚ) (aux1 aux2 raw : ℚ),
      compensate_temperature false factor cpu_temps aux1 raw = (cpu_temps, raw) ∧
      compensate_temperature false factor cpu_temps aux1 raw =
        compensate_temperature false factor cpu_temps aux2 raw := by
  intro factor cpu_temps aux1 aux2 raw
  exact ⟨rfl, rfl⟩

/-- C6: a PMS5003 read failure in a cycle yields a row whose nine
particulate fields are all none, while every other field (and the updated
compensation history) is identical to what the same cycle would have
produced had the particulate read succeeded, and the cycle still completes
with a row. -/
theorem c6_pm_failure_nulls :
    ∀ (enabled : Bool) (factor : ℚ) (cpu_temps : List ℚ) (ts rt pr hu : ℚ)
      (g : GasReading) (lx px : ℚ) (p : PMReading) (cpu : ℚ),
      ∃ (rowF : SampleRow) (temps : List ℚ) (rowO : SampleRow),
        read_sensors enabled factor cpu_temps
            ⟨ts, some (rt, pr, hu), some g, some (lx, px), none, cpu⟩ = some (rowF, temps) ∧
        read_sensors enabled factor cpu_temps
            ⟨ts, some (rt, pr, hu), some g, some (lx, px), some p, cpu⟩ = some (rowO, temps) ∧
        rowF.pm1 = none ∧ rowF.pm2_5 = none ∧ rowF.pm10 = none ∧
        rowF.particles_03um = none ∧ rowF.particles_05um = none ∧
        rowF.particles_10um = none ∧ rowF.particles_25um = none ∧
        rowF.particles_50um = none ∧ rowF.particles_100um = none ∧
        rowF.timestamp = rowO.timestamp ∧ rowF.temperature = rowO.temperature ∧
        rowF.raw_temperature = rowO.raw_temperature ∧ rowF.pressure = rowO.pressure ∧
        rowF.humidity = rowO.humidity ∧ rowF.oxidised = rowO.oxidised ∧
        rowF.reducing = rowO.reducing ∧ rowF.nh3 = rowO.nh3 ∧
        rowF.lux = rowO.lux ∧ rowF.proximity = rowO.proximity := by
  intro enabled factor cpu_temps ts rt pr hu g lx px p cpu
  refine ⟨_, _, _, rfl, rfl, ?_⟩
  simp [read_sensors]

/-- C7 counterexample: the claim states that a read failure of any sensor
leaves that sensor fields null and never aborts the cycle.  In the source
only the PMS5003 read is guarded; here a BME280 read failure makes
read_sensors raise (modelled as none), so the cycle is aborted and no row
is produced, and the uncaught exception ends the while loop of main. -/
theorem c7_bme_failure_aborts_counterexample :
    read_sensors true 2.25 []
      ⟨0, none, some ⟨0, 0, 0⟩, some (0, 0), some ⟨0, 0, 0, 0, 0, 0, 0, 0, 0⟩, 40⟩ = none := by
  rfl

/-- C7 amended: only particulate sensor failures are converted to null
fields without aborting; read_sensors aborts the cycle (the exception
propagates and terminates the main loop) exactly when the BME280, gas or
LTR559 read fails. -/
theorem c7_abort_iff_non_pm_failure :
    ∀ (enabled : Bool) (factor : ℚ) (cpu_temps : List ℚ) (ts : ℚ)
      (bme : Option (ℚ × ℚ × ℚ)) (gas : Option GasReading)
      (ltr : Option (ℚ × ℚ)) (pm : Option PMReading) (cpu : ℚ),
      read_sensors enabled factor cpu_temps ⟨ts, bme, gas, ltr, pm, cpu⟩ = none ↔
        (bme = none ∨ gas = none ∨ ltr = none) := by
  intro enabled factor cpu_temps ts bme gas ltr pm cpu
  rcases bme with _ | ⟨rt, pr, hu⟩ <;> rcases gas with _ | g <;>
    rcases ltr with _ | ⟨lx, px⟩ <;> rcases pm with _ | p <;>
    simp [read_sensors]

/-- Default value of BATCH_DURATION (line 63): 900 seconds, 15 minutes. -/
def BATCH_DURATION : ℤ := 900

/-- Default value of STATION_ID (line 64). -/
def STATION_ID : String := "00000000-0000-0000-0000-000000000000"

/-- Bridge between the executable floor on ℚ used by the embedding and the
floor of the order structure (they are definitionally the same). -/
theorem rat_floor_eq_floor (q : ℚ) : Rat.floor q = ⌊q⌋ := rfl

/-- Model of lines 188 to 201: the duration of the first batch, computed
from the process start instant t0.  now.minute and now.second are the
minute and second fields of the UTC datetime at t0, recovered from the
integer part of t0. -/
def first_batch_duration (t0 : ℚ) (batch_duration : ℤ) : ℚ :=
  let c := Rat.floor t0
  let minute := (c / 60) % 60
  let second := c % 60
  let minutes_to_add := 15 - minute % 15
  let seconds_to_next_15min : ℤ :=
    if minutes_to_add = 15 ∧ second = 0 then 0 else minutes_to_add * 60 - second
  if 0 < seconds_to_next_15min then (seconds_to_next_15min : ℚ) else (batch_duration : ℚ)

/-- Model of lines 288 to 296: the check run after adding BATCH_DURATION
to next_batch_end.  If the minute and second of the candidate end are off
the 15 minute grid, the seconds needed to reach the next grid mark are
added; otherwise the value is kept. -/
def align_to_grid (x : ℚ) : ℚ :=
  let c := Rat.floor x
  let minute := (c / 60) % 60
  let second := c % 60
  let minutes_to_add := 15 - minute % 15
  if minutes_to_add = 15 ∧ second = 0 then x
  else x + ((minutes_to_add * 60 - second : ℤ) : ℚ)

/-- Model of line 286 followed by lines 288 to 296: the next window end
after a flush. -/
def advance_batch_end (batch_duration : ℤ) (e : ℚ) : ℚ :=
  align_to_grid (e + (batch_duration : ℚ))

/-- Observational record of one flush: the rows handed to the DuckDB COPY
(a row is represented by its timestamp, the only row field the scheduler
and the partitioning reasoning below inspect), the window they were
collected in, the value of next_batch_end in effect at the flush, and the
row count printed on line 277.  window_start is spec-level bookkeeping
(the end of the previous window, or the process start for the first
window); the loop control never reads it. -/
structure FlushRecord where
  rows : List ℚ
  window_start : ℚ
  window_end : ℚ
  records_written : ℕ
deriving DecidableEq

/-- State of the while loop of main: batch_data and next_batch_end are the
Python variables of the same names; window_start and flush_log are
spec-level bookkeeping recording the writer calls performed so far. -/
structure MainState where
  batch_data : List ℚ
  window_start : ℚ
  next_batch_end : ℚ
  flush_log : List FlushRecord
deriving DecidableEq

/-- State right before the first loop iteration (lines 185 to 201). -/
def init_state (batch_duration : ℤ) (t0 : ℚ) : MainState :=
  { batch_data := []
    window_start := t0
    next_batch_end := t0 + first_batch_duration t0 batch_duration
    flush_log := [] }

/-- One iteration of the while loop (lines 204 to 301) at cycle instant t:
read_sensors yields a row stamped t, the row is appended to batch_data,
and if t has reached next_batch_end the whole batch is written out and the
next window end computed. -/
def main_step (batch_duration : ℤ) (s : MainState) (t : ℚ) : MainState :=
  let rows := s.batch_data ++ [t]
  if s.next_batch_end ≤ t then
    { batch_data := []
      window_start := s.next_batch_end
      next_batch_end := advance_batch_end batch_duration s.next_batch_end
      flush_log := s.flush_log ++
        [{ rows := rows
           window_start := s.window_start
           window_end := s.next_batch_end
           records_written := rows.length }] }
  else
    { s with batch_data := rows }

/-- The main loop run over the list of cycle instants ts. -/
def main_run (batch_duration : ℤ) (t0 : ℚ) (ts : List ℚ) : MainState :=
  ts.foldl (main_step batch_duration) (init_state batch_duration t0)

/-- The boundary condition checked on lines 191 and 291 holds exactly when
the integer part of the instant is a multiple of 900 seconds. -/
theorem grid_cond_iff (c : ℤ) :
    (15 - ((c / 60) % 60) % 15 = 15 ∧ c % 60 = 0) ↔ c % 900 = 0 := by omega

/-- Off the boundary, the adjustment added on lines 294 to 296 is exactly
the distance to the next multiple of 900 seconds. -/
theorem grid_adjust (c : ℤ) (h : c % 900 ≠ 0) :
    (15 - ((c / 60) % 60) % 15) * 60 - c % 60 = 900 - c % 900 := by omega

/-- Adding an integer number of seconds shifts the integer part. -/
theorem rat_floor_add_int (x : ℚ) (n : ℤ) :
    Rat.floor (x + (n : ℚ)) = Rat.floor x + n := by
  rw [rat_floor_eq_floor, rat_floor_eq_floor]
  exact Int.floor_add_int x n

/-- The realignment of lines 288 to 296 always lands the integer part of
the window end on the 900 second grid, whatever its input. -/
theorem align_to_grid_aligned (x : ℚ) : Rat.floor (align_to_grid x) % 900 = 0 := by
  simp only [align_to_grid]
  split
  · next hcond => exact (grid_cond_iff (Rat.floor x)).1 hcond
  · next hcond =>
    have hne : Rat.floor x % 900 ≠ 0 := fun h => hcond ((grid_cond_iff _).2 h)
    have hadj := grid_adjust (Rat.floor x) hne
    rw [rat_floor_add_int]
    omega

/-- The realignment never moves the window end backward. -/
theorem align_to_grid_ge (x : ℚ) : x ≤ align_to_grid x := by
  simp only [align_to_grid]
  split
  · exact le_refl x
  · have h0 : (0 : ℤ) ≤ (15 - ((Rat.floor x / 60) % 60) % 15) * 60 - Rat.floor x % 60 := by
      omega
    have : (0 : ℚ) ≤ ((15 - ((Rat.floor x / 60) % 60) % 15) * 60 - Rat.floor x % 60 : ℤ) := by
      exact_mod_cast h0
    linarith

/-- After a window advance the integer part of the end is on the grid. -/
theorem advance_batch_end_aligned (batch_duration : ℤ) (e : ℚ) :
    Rat.floor (advance_batch_end batch_duration e) % 900 = 0 :=
  align_to_grid_aligned _

/-- A window advance moves the end forward by at least BATCH_DURATION. -/
theorem advance_batch_end_ge (batch_duration : ℤ) (e : ℚ) :
    e + (batch_duration : ℚ) ≤ advance_batch_end batch_duration e :=
  align_to_grid_ge _

/-- The first batch duration is positive whenever BATCH_DURATION is. -/
theorem first_batch_duration_pos (t0 : ℚ) (batch_duration : ℤ)
    (hpos : 0 < batch_duration) : 0 < first_batch_duration t0 batch_duration := by
  simp only [first_batch_duration]
  split
  · norm_num
    exact_mod_cast hpos
  · split
    · next h2 => exact_mod_cast h2
    · exact_mod_cast hpos

/-- If BATCH_DURATION is a positive multiple of 900 seconds then the end
of the first window has its integer part on the grid. -/
theorem first_end_aligned (t0 : ℚ) (batch_duration : ℤ)
    (h900 : (900 : ℤ) ∣ batch_duration) :
    Rat.floor (t0 + first_batch_duration t0 batch_duration) % 900 = 0 := by
  simp only [first_batch_duration]
  by_cases hcond : 15 - ((Rat.floor t0 / 60) % 60) % 15 = 15 ∧ Rat.floor t0 % 60 = 0
  · rw [if_pos hcond]
    have h0 : Rat.floor t0 % 900 = 0 := (grid_cond_iff _).1 hcond
    have : ¬ ((0 : ℤ) < 0) := by omega
    rw [if_neg this, rat_floor_add_int]
    omega
  · rw [if_neg hcond]
    have hne : Rat.floor t0 % 900 ≠ 0 := fun h => hcond ((grid_cond_iff _).2 h)
    have hadj := grid_adjust (Rat.floor t0) hne
    have hpos : (0 : ℤ) < (15 - ((Rat.floor t0 / 60) % 60) % 15) * 60 - Rat.floor t0 % 60 := by
      omega
    rw [if_pos hpos, rat_floor_add_int]
    omega

/-- Proleptic Gregorian calendar date (year, month, day) for a day count
relative to 1970-01-01: the standard civil-from-days algorithm, with
euclidean division (equal to floor division here since every divisor is
positive), as implemented by the datetime library the script relies on. -/
def civil_from_days (z0 : ℤ) : ℤ × ℤ × ℤ :=
  let z := z0 + 719468
  let era := z / 146097
  let doe := z - era * 146097
  let yoe := (doe - doe / 1460 + doe / 36524 - doe / 146096) / 365
  let y := yoe + era * 400
  let doy := doe - (365 * yoe + yoe / 4 - yoe / 100)
  let mp := (5 * doy + 2) / 153
  let d := doy - (153 * mp + 2) / 5 + 1
  let m := mp + (if mp < 10 then 3 else -9)
  (y + (if m ≤ 2 then 1 else 0), m, d)

/-- The partition key columns (station, year, month, day, hour,
minute_bucket) derived from one epoch instant. -/
structure PartitionKey where
  station : String
  year : ℤ
  month : ℤ
  day : ℤ
  hour : ℤ
  minute_bucket : ℤ
deriving DecidableEq

/-- Partition key columns computed from an instant t.  The SQL on lines
258 to 262 computes exactly these columns from the timestamp column of
each row (the division by 15 is modelled as integer division); lines 214
to 224 compute the same components from next_batch_end for the log
message, since replacing the minute by 15 * (minute // 15) and zeroing
second and microsecond leaves year, month, day and hour unchanged and
makes the printed minute the bucket of the minute of window_end. -/
def partition_key_of (station : String) (t : ℚ) : PartitionKey :=
  let c := Rat.floor t
  let ymd := civil_from_days (c / 86400)
  { station := station
    year := ymd.1
    month := ymd.2.1
    day := ymd.2.2
    hour := (c % 86400) / 3600
    minute_bucket := ((c / 60) % 60) / 15 * 15 }

/-- C1 (code bug): where rows are persisted is decided by the partition
columns the SQL computes from each row timestamp (lines 258 to 262 and
the PARTITION_BY clause on line 266), not from window_end.  In the run
below, the batch flushed for the window ending at t = 900 contains the
row read at t = 450; the COPY writes that row under minute_bucket 0, the
bucket of its own timestamp, while the key derived from window_end has
minute_bucket 15, which is what the comment on line 213 intends and what
the log message on lines 276 and 277 prints.  So the two keys disagree on
the same flush, contradicting the claim that every row of the batch is
written under the key computed from window_end. -/
theorem c1_partition_key_uses_row_timestamps :
    (main_run 900 0 [450, 900]).flush_log =
      [{ rows := [450, 900], window_start := 0, window_end := 900, records_written := 2 }] ∧
    partition_key_of STATION_ID 450 =
      { station := STATION_ID, year := 1970, month := 1, day := 1, hour := 0,
        minute_bucket := 0 } ∧
    partition_key_of STATION_ID 900 =
      { station := STATION_ID, year := 1970, month := 1, day := 1, hour := 0,
        minute_bucket := 15 } ∧
    partition_key_of STATION_ID 450 ≠ partition_key_of STATION_ID 900 := by
  refine ⟨?_, by decide, by decide, by decide⟩
  norm_num [main_run, init_state, main_step, first_batch_duration, align_to_grid,
    advance_batch_end, Rat.floor_def']

/-- C2 counterexample: the claim says the window_end in effect at a flush
is an exact multiple of the 15 minute grid with seconds and sub-seconds
zero, for every process start time.  Starting half a second after
midnight (t0 = 1/2 with the default BATCH_DURATION 900), the alignment
code reads minute 0 and second 0 off the truncated datetime, so the first
window runs the full 900 seconds and is flushed with
window_end = 900.5 = 1801/2 seconds, which is not an integral multiple of
900: the fractional part of the start instant is never cancelled. -/
theorem c2_window_end_fractional_counterexample :
    (main_run 900 (1/2) [901]).flush_log =
      [{ rows := [901], window_start := 1/2, window_end := 1801/2, records_written := 1 }] ∧
    ¬ ∃ k : ℤ, (1801/2 : ℚ) = 900 * (k : ℚ) := by
  constructor
  · norm_num [main_run, init_state, main_step, first_batch_duration, align_to_grid,
      advance_batch_end, Rat.floor_def']
  · rintro ⟨k, hk⟩
    have h1 : (1801 : ℚ) = 1800 * (k : ℚ) := by linarith
    have h2 : (1801 : ℤ) = 1800 * k := by exact_mod_cast h1
    omega

/-- Whole-second grid alignment of the loop variable next_batch_end and
of every logged window end. -/
def GridInv (s : MainState) : Prop :=
  Rat.floor s.next_batch_end % 900 = 0 ∧
  ∀ rec ∈ s.flush_log, Rat.floor rec.window_end % 900 = 0

/-- An invariant preserved by each loop iteration holds after any run. -/
theorem foldl_step_invariant (batch_duration : ℤ) (P : MainState → Prop)
    (hP : ∀ s t, P s → P (main_step batch_duration s t)) :
    ∀ (ts : List ℚ) (s : MainState), P s → P (ts.foldl (main_step batch_duration) s) := by
  intro ts
  induction ts with
  | nil => exact fun s hs => hs
  | cons t ts ih => exact fun s hs => ih _ (hP s t hs)

/-- One loop iteration preserves whole-second grid alignment. -/
theorem grid_inv_step (batch_duration : ℤ) (s : MainState) (t : ℚ)
    (h : GridInv s) : GridInv (main_step batch_duration s t) := by
  obtain ⟨h1, h2⟩ := h
  simp only [main_step]
  split
  · refine ⟨advance_batch_end_aligned _ _, ?_⟩
    intro rec hrec
    simp only [List.mem_append, List.mem_singleton] at hrec
    rcases hrec with hmem | rfl
    · exact h2 rec hmem
    · exact h1
  · exact ⟨h1, h2⟩

/-- C2 amended: for the default BATCH_DURATION of 900 seconds (and for
any positive multiple of the 900 second grid), the window_end in effect
at every flush lies on the 15 minute UTC grid at whole-second resolution:
its integer part is a multiple of 900 seconds, so its integer second
component is 0 and its minute component is a multiple of 15 (0, 15, 30 or
45).  This holds for the first window and is preserved by every advance,
for every start instant and every cycle schedule; only the sub-second
part of window_end, inherited unchanged from the start instant, can be
nonzero. -/
theorem c2_window_end_floor_grid_aligned (batch_duration : ℤ)
    (h900 : (900 : ℤ) ∣ batch_duration) (t0 : ℚ) (ts : List ℚ) :
    ∀ rec ∈ (main_run batch_duration t0 ts).flush_log,
      Rat.floor rec.window_end % 900 = 0 ∧
      Rat.floor rec.window_end % 60 = 0 ∧
      ((Rat.floor rec.window_end / 60) % 60) % 15 = 0 := by
  have hinv : GridInv (main_run batch_duration t0 ts) := by
    simp only [main_run]
    apply foldl_step_invariant batch_duration GridInv (grid_inv_step batch_duration)
    constructor
    · exact first_end_aligned t0 batch_duration h900
    · intro rec hrec
      simp [init_state] at hrec
  intro rec hrec
  have h9 := hinv.2 rec hrec
  exact ⟨h9, by omega, by omega⟩

/-- C2 witness: the amended alignment property instantiated at the
counterexample run (start half a second past a grid mark). -/
theorem c2_window_end_floor_grid_aligned_witness :
    (900 : ℤ) ∣ 900 ∧
    ∀ rec ∈ (main_run 900 (1/2) [901]).flush_log,
      Rat.floor rec.window_end % 900 = 0 ∧
      Rat.floor rec.window_end % 60 = 0 ∧
      ((Rat.floor rec.window_end / 60) % 60) % 15 = 0 :=
  ⟨⟨1, rfl⟩, c2_window_end_floor_grid_aligned 900 ⟨1, rfl⟩ (1/2) [901]⟩

/-- C8 counterexample: the claim quantifies over every configured nominal
duration.  With BATCH_DURATION = 300 and a process start 30 seconds past
a grid mark, the source computes a first batch of 870 seconds, which is
larger than the nominal 300 second duration. -/
theorem c8_first_duration_counterexample :
    first_batch_duration 30 300 = 870 ∧ ¬ (first_batch_duration 30 300 ≤ (300 : ℚ)) := by
  have h : first_batch_duration 30 300 = 870 := by
    norm_num [first_batch_duration, Rat.floor_def']
  exact ⟨h, by rw [h]; norm_num⟩

/-- C8 amended: when the configured nominal duration is a positive
multiple of the 900 second grid (in particular the default 900), the
first window duration is at most the nominal duration, the integer part
of the first window end lands on the 15 minute grid, and a start exactly
on a grid mark (at whole-second resolution) gets a full nominal-length
first window rather than an empty one. -/
theorem c8_first_window_grid (t0 : ℚ) (batch_duration : ℤ)
    (h900 : (900 : ℤ) ∣ batch_duration) (hpos : 0 < batch_duration) :
    first_batch_duration t0 batch_duration ≤ (batch_duration : ℚ) ∧
    Rat.floor (t0 + first_batch_duration t0 batch_duration) % 900 = 0 ∧
    (Rat.floor t0 % 900 = 0 →
      first_batch_duration t0 batch_duration = (batch_duration : ℚ)) := by
  refine ⟨?_, first_end_aligned t0 batch_duration h900, ?_⟩
  · simp only [first_batch_duration]
    by_cases hcond : 15 - ((Rat.floor t0 / 60) % 60) % 15 = 15 ∧ Rat.floor t0 % 60 = 0
    · rw [if_pos hcond]
      norm_num
    · rw [if_neg hcond]
      have hne : Rat.floor t0 % 900 ≠ 0 := fun h => hcond ((grid_cond_iff _).2 h)
      have hadj := grid_adjust (Rat.floor t0) hne
      split
      · have hle : (15 - ((Rat.floor t0 / 60) % 60) % 15) * 60 - Rat.floor t0 % 60 ≤
            batch_duration := by omega
        exact_mod_cast hle
      · norm_num
  · intro h0
    simp only [first_batch_duration]
    have hcond : 15 - ((Rat.floor t0 / 60) % 60) % 15 = 15 ∧ Rat.floor t0 % 60 = 0 :=
      (grid_cond_iff _).2 h0
    rw [if_pos hcond]
    norm_num

/-- C8 witness: the amended first-window property instantiated at a start
30 seconds past a grid mark with the default duration 900. -/
theorem c8_first_window_grid_witness :
    first_batch_duration 30 900 ≤ ((900 : ℤ) : ℚ) ∧
    Rat.floor ((30 : ℚ) + first_batch_duration 30 900) % 900 = 0 ∧
    (Rat.floor (30 : ℚ) % 900 = 0 → first_batch_duration 30 900 = ((900 : ℤ) : ℚ)) :=
  c8_first_window_grid 30 900 ⟨1, rfl⟩ (by decide)

/-- C3 counterexample: the claim says every row of a flushed batch has its
timestamp inside [window_start, window_end).  In the source the row of the
triggering cycle is read and appended before the flush condition is
checked (lines 205, 206 and 212), so the batch flushed for the window
ending at 900 contains the row read at t = 900, whose timestamp is not
below window_end. -/
theorem c3_trigger_row_at_window_end_counterexample :
    (main_run 900 0 [450, 900]).flush_log =
      [{ rows := [450, 900], window_start := 0, window_end := 900, records_written := 2 }] ∧
    (900 : ℚ) ∈ ([450, 900] : List ℚ) ∧ ¬ ((900 : ℚ) < 900) := by
  refine ⟨?_, by decide, by decide⟩
  norm_num [main_run, init_state, main_step, first_batch_duration, align_to_grid,
    advance_batch_end, Rat.floor_def']

/-- The window bookkeeping invariant: the current window is not inverted,
every pending row lies inside the current window, and every logged flush
satisfies the amended batch property. -/
def WindowInv (s : MainState) : Prop :=
  s.window_start ≤ s.next_batch_end ∧
  (∀ r ∈ s.batch_data, s.window_start ≤ r ∧ r < s.next_batch_end) ∧
  (∀ rec ∈ s.flush_log,
    (∀ r ∈ rec.rows, rec.window_start ≤ r) ∧
    (∀ r ∈ rec.rows.dropLast, r < rec.window_end))

/-- The window bookkeeping invariant is preserved along a run whose cycle
instants are nondecreasing and start no earlier than the current window
start. -/
theorem window_inv_run (batch_duration : ℤ) (hpos : 0 < batch_duration) :
    ∀ (ts : List ℚ), ts.Pairwise (· ≤ ·) →
      ∀ s : MainState, WindowInv s → (∀ t ∈ ts, s.window_start ≤ t) →
        WindowInv (ts.foldl (main_step batch_duration) s) := by
  intro ts
  induction ts with
  | nil => intro _ s hs _; exact hs
  | cons t ts ih =>
    intro hsorted s hs hts
    simp only [List.foldl_cons]
    have hpair := List.pairwise_cons.1 hsorted
    have hws : s.window_start ≤ t := hts t (List.mem_cons_self t ts)
    by_cases hflush : s.next_batch_end ≤ t
    · have hstep : main_step batch_duration s t =
          { batch_data := []
            window_start := s.next_batch_end
            next_batch_end := advance_batch_end batch_duration s.next_batch_end
            flush_log := s.flush_log ++
              [{ rows := s.batch_data ++ [t]
                 window_start := s.window_start
                 window_end := s.next_batch_end
                 records_written := (s.batch_data ++ [t]).length }] } := by
        simp only [main_step, if_pos hflush]
      rw [hstep]
      apply ih hpair.2
      · refine ⟨?_, ?_, ?_⟩
        · have h1 := advance_batch_end_ge batch_duration s.next_batch_end
          have h2 : (0 : ℚ) < (batch_duration : ℚ) := by exact_mod_cast hpos
          show s.next_batch_end ≤ advance_batch_end batch_duration s.next_batch_end
          linarith
        · intro r hr
          simp at hr
        · intro rec hrec
          simp only [List.mem_append, List.mem_singleton] at hrec
          rcases hrec with hmem | rfl
          · exact hs.2.2 rec hmem
          · constructor
            · intro r hr
              simp only [List.mem_append, List.mem_singleton] at hr
              rcases hr with hr | rfl
              · exact (hs.2.1 r hr).1
              · exact le_trans hs.1 hflush
            · intro r hr
              rw [List.dropLast_concat] at hr
              exact (hs.2.1 r hr).2
      · intro u hu
        show s.next_batch_end ≤ u
        exact le_trans hflush (hpair.1 u hu)
    · have hstep : main_step batch_duration s t =
          { s with batch_data := s.batch_data ++ [t] } := by
        simp only [main_step, if_neg hflush]
      rw [hstep]
      apply ih hpair.2
      · refine ⟨hs.1, ?_, hs.2.2⟩
        intro r hr
        simp only [List.mem_append, List.mem_singleton] at hr
        rcases hr with hr | rfl
        · exact hs.2.1 r hr
        · exact ⟨hws, not_le.1 hflush⟩
      · intro u hu
        exact hts u (List.mem_cons_of_mem t hu)

/-- C3 amended: for a positive BATCH_DURATION and nondecreasing cycle
instants starting no earlier than the process start, every flushed batch
has all its rows at or after the window start, and all rows except
possibly the last one (the row of the cycle that triggered the flush,
which is read before the flush check and so can carry a timestamp at or
after window_end) strictly before the window end. -/
theorem c3_batch_rows_within_window_except_trigger (batch_duration : ℤ)
    (hpos : 0 < batch_duration) (t0 : ℚ) (ts : List ℚ)
    (hsorted : ts.Pairwise (· ≤ ·)) (hstart : ∀ t ∈ ts, t0 ≤ t) :
    ∀ rec ∈ (main_run batch_duration t0 ts).flush_log,
      (∀ r ∈ rec.rows, rec.window_start ≤ r) ∧
      (∀ r ∈ rec.rows.dropLast, r < rec.window_end) := by
  have hinv : WindowInv (main_run batch_duration t0 ts) := by
    simp only [main_run]
    apply window_inv_run batch_duration hpos ts hsorted
    · refine ⟨?_, ?_, ?_⟩
      · show t0 ≤ t0 + first_batch_duration t0 batch_duration
        have h := first_batch_duration_pos t0 batch_duration hpos
        linarith
      · intro r hr
        simp [init_state] at hr
      · intro rec hrec
        simp [init_state] at hrec
    · exact hstart
  exact fun rec hrec => hinv.2.2 rec hrec

/-- C3 witness: the amended batch property instantiated at the concrete
run used for the counterexample. -/
theorem c3_batch_rows_within_window_except_trigger_witness :
    (0 : ℤ) < 900 ∧ ([450, 900] : List ℚ).Pairwise (· ≤ ·) ∧
    (∀ t ∈ ([450, 900] : List ℚ), (0 : ℚ) ≤ t) ∧
    ∀ rec ∈ (main_run 900 0 [450, 900]).flush_log,
      (∀ r ∈ rec.rows, rec.window_start ≤ r) ∧
      (∀ r ∈ rec.rows.dropLast, r < rec.window_end) :=
  ⟨by decide, by decide, by decide,
    c3_batch_rows_within_window_except_trigger 900 (by decide) 0 [450, 900]
      (by decide) (by decide)⟩

/-- Every row appended so far, in order: the flushed batches followed by
the pending batch. -/
def all_appended_rows (s : MainState) : List ℚ :=
  (s.flush_log.map FlushRecord.rows).flatten ++ s.batch_data

/-- One loop iteration appends exactly its row to the appended-row
history, whether or not it flushes. -/
theorem all_appended_rows_step (batch_duration : ℤ) (s : MainState) (t : ℚ) :
    all_appended_rows (main_step batch_duration s t) = all_appended_rows s ++ [t] := by
  simp only [all_appended_rows, main_step]
  split
  · simp
  · simp

/-- Over a whole run the appended-row history is the cycle schedule. -/
theorem all_appended_rows_run (batch_duration : ℤ) :
    ∀ (ts : List ℚ) (s : MainState),
      all_appended_rows (ts.foldl (main_step batch_duration) s) =
        all_appended_rows s ++ ts := by
  intro ts
  induction ts with
  | nil => intro s; simp
  | cons t ts ih =>
    intro s
    simp only [List.foldl_cons]
    rw [ih, all_appended_rows_step]
    simp

/-- One loop iteration preserves the reported-count bookkeeping. -/
theorem records_written_step (batch_duration : ℤ) (s : MainState) (t : ℚ)
    (h : ∀ rec ∈ s.flush_log, rec.records_written = rec.rows.length) :
    ∀ rec ∈ (main_step batch_duration s t).flush_log,
      rec.records_written = rec.rows.length := by
  simp only [main_step]
  split
  · intro rec hrec
    simp only [List.mem_append, List.mem_singleton] at hrec
    rcases hrec with hmem | rfl
    · exact h rec hmem
    · rfl
  · exact h

/-- C9: over any run, the concatenation of all flushed batches followed
by the still pending batch is exactly the list of appended rows, one per
cycle, in order: no row is lost and none is duplicated across flushes.
Each flush reports exactly the number of rows of the batch it hands to
the writer, and a flushing iteration leaves the accumulator empty while a
non-flushing one only appends its row. -/
theorem c9_no_row_loss (batch_duration : ℤ) (t0 : ℚ) (ts : List ℚ) :
    all_appended_rows (main_run batch_duration t0 ts) = ts ∧
    (∀ rec ∈ (main_run batch_duration t0 ts).flush_log,
      rec.records_written = rec.rows.length) ∧
    (∀ (s : MainState) (t : ℚ),
      (main_step batch_duration s t).batch_data =
        if s.next_batch_end ≤ t then [] else s.batch_data ++ [t]) := by
  refine ⟨?_, ?_, ?_⟩
  · simp only [main_run]
    rw [all_appended_rows_run]
    simp [all_appended_rows, init_state]
  · simp only [main_run]
    apply foldl_step_invariant batch_duration
      (fun s => ∀ rec ∈ s.flush_log, rec.records_written = rec.rows.length)
      (records_written_step batch_duration)
    intro rec hrec
    simp [init_state] at hrec
  · intro s t
    simp only [main_step]
    split
    · rfl
    · rfl

/-- C10: the write path is reached only with a nonempty batch: the row of
the triggering cycle is appended before the flush check, so every batch
handed to the writer contains at least that row. -/
theorem c10_flush_batch_nonempty (batch_duration : ℤ) (t0 : ℚ) (ts : List ℚ) :
    ∀ rec ∈ (main_run batch_duration t0 ts).flush_log, rec.rows ≠ [] := by
  simp only [main_run]
  apply foldl_step_invariant batch_duration
    (fun s => ∀ rec ∈ s.flush_log, rec.rows ≠ [])
  · intro s t hs
    simp only [main_step]
    split
    · intro rec hrec
      simp only [List.mem_append, List.mem_singleton] at hrec
      rcases hrec with hmem | rfl
      · exact hs rec hmem
      · simp
    · exact hs
  · intro rec hrec
    simp [init_state] at hrec

/-- C10 witness: the nonempty-batch property instantiated at the concrete
run with one flush. -/
theorem c10_flush_batch_nonempty_witness :
    (⟨[450, 900], 0, 900, 2⟩ : FlushRecord) ∈ (main_run 900 0 [450, 900]).flush_log ∧
    (⟨[450, 900], 0, 900, 2⟩ : FlushRecord).rows ≠ [] := by
  have hmem : (⟨[450, 900], 0, 900, 2⟩ : FlushRecord) ∈
      (main_run 900 0 [450, 900]).flush_log := by
    simp +decide [main_run, init_state, main_step, first_batch_duration, align_to_grid,
      advance_batch_end, rat_floor_eq_floor, Int.floor_zero]
  exact ⟨hmem, c10_flush_batch_nonempty 900 0 [450, 900] _ hmem⟩
